import Mathlib

/-!
Shallow embedding of the conversation-orchestration core of the MPBF assistant
backend (src/server/openai.ts, src/server/routes.ts, src/server/storage.ts).

Conventions of the embedding:
* JavaScript strings become Lean `String` (sequences of characters);
  `s.includes(t)` becomes infix-of on the character lists.
* JavaScript truthiness on strings (`s || d`, `s ? a : b`) is modelled by
  emptiness tests; `x || d` on a nullable string is `jsOr` on `Option String`.
* `async` functions that may throw become total functions taking the outcome
  of each external call as an explicit `Except`/sum argument.
* Database rows carry `Nat` identifiers and `Nat` timestamps; each storage
  operation receives the current wall-clock time `now` as an argument.
-/

namespace MPBF

/-- Character membership in the Arabic Unicode ranges used by the
`containsArabic` regex in src/server/openai.ts (U+0600–U+06FF, U+0750–U+077F,
U+08A0–U+08FF, U+FB50–U+FDFF, U+FE70–U+FEFF). -/
def isArabicChar (c : Char) : Bool :=
  (0x0600 ≤ c.toNat && c.toNat ≤ 0x06FF) ||
  (0x0750 ≤ c.toNat && c.toNat ≤ 0x077F) ||
  (0x08A0 ≤ c.toNat && c.toNat ≤ 0x08FF) ||
  (0xFB50 ≤ c.toNat && c.toNat ≤ 0xFDFF) ||
  (0xFE70 ≤ c.toNat && c.toNat ≤ 0xFEFF)

/-- Embedding of `containsArabic` (src/server/openai.ts lines 13–16): the
regex test succeeds iff some character of the text lies in one of the ranges. -/
def containsArabic (text : String) : Bool :=
  text.data.any isArabicChar

/-- Occurrence of `needle` as a contiguous run inside `hay`. -/
def containsSeq (needle : List Char) : List Char → Bool
  | [] => needle.isEmpty
  | c :: t => needle.isPrefixOf (c :: t) || containsSeq needle t

/-- Embedding of JavaScript `hay.includes(needle)` for strings. -/
def includes (hay needle : String) : Bool :=
  containsSeq needle.data hay.data

/-- Embedding of JavaScript `x || d` where `x : string | null | undefined`:
`null`, `undefined` and the empty string are falsy. -/
def jsOr (x : Option String) (d : String) : String :=
  match x with
  | some s => if s.isEmpty then d else s
  | none => d

/-- Embedding of JavaScript `s.toLowerCase()` (the keyword sets matched
against the lowered message are ASCII, for which `Char.toLower` agrees):
character-wise lowering of the text. -/
def toLowerCase (s : String) : String :=
  String.mk (s.data.map Char.toLower)

/-- Shape of one email item consumed by context enrichment
(GmailService.listMessages result, src/server/gmail.ts interface). -/
structure Email where
  «from» : String
  subject : String
  date : String
  snippet : String
  deriving DecidableEq

/-- Shape of one calendar event consumed by context enrichment
(GoogleCalendarService.getUpcomingEvents result). -/
structure CalendarEvent where
  summary : String
  start : String
  location : Option String
  attendees : Option (List String)
  deriving DecidableEq

/-- Outcomes of the three external fetches a single enrichment pass may
perform; `Except.error` models the client throwing (for example the
"not connected" error). -/
structure ExternalClients where
  listMessages : Except String (List Email)
  unreadCount : Except String Nat
  upcomingEvents : Except String (List CalendarEvent)

/-- Email-intent keyword match of `enrichContextWithBusinessData`
(src/server/openai.ts lines 28–29): three English keywords against the
lower-cased message, three Arabic keywords against the original message. -/
def emailKeywordMatch (userMessage : String) : Bool :=
  let lowerMessage := toLowerCase userMessage
  includes lowerMessage "email" || includes lowerMessage "mail" ||
  includes lowerMessage "inbox" ||
  includes userMessage "بريد" || includes userMessage "رسائل" ||
  includes userMessage "إيميل"

/-- Calendar-intent keyword match of `enrichContextWithBusinessData`
(src/server/openai.ts lines 48–49). -/
def calendarKeywordMatch (userMessage : String) : Bool :=
  let lowerMessage := toLowerCase userMessage
  includes lowerMessage "calendar" || includes lowerMessage "meeting" ||
  includes lowerMessage "schedule" || includes lowerMessage "event" ||
  includes userMessage "تقويم" || includes userMessage "اجتماع" ||
  includes userMessage "موعد" || includes userMessage "جدول"

/-- One numbered entry of the email context block
(src/server/openai.ts line 39). -/
def formatEmailItem (i : Nat) (e : Email) : String :=
  toString (i + 1) ++ ". From: " ++ e.«from» ++ "\n   Subject: " ++ e.subject ++
  "\n   Date: " ++ e.date ++ "\n   Snippet: " ++ e.snippet ++ "\n\n"

/-- The email context block appended when the email keywords match and both
Gmail calls succeed (src/server/openai.ts lines 35–40). -/
def emailBlock (emails : List Email) (unread : Nat) : String :=
  "\n\nRecent Email Context:\n" ++
  "You have " ++ toString unread ++ " unread emails.\n" ++
  "Recent emails:\n" ++
  String.join (emails.enum.map (fun p => formatEmailItem p.1 p.2))

/-- One numbered entry of the calendar context block
(src/server/openai.ts lines 59–64); `if (event.location)` and
`event.attendees && event.attendees.length > 0` use JS truthiness. -/
def formatEventItem (i : Nat) (e : CalendarEvent) : String :=
  toString (i + 1) ++ ". " ++ e.summary ++ "\n   When: " ++ e.start ++ "\n" ++
  (match e.location with
   | some l => if l.isEmpty then "" else "   Where: " ++ l ++ "\n"
   | none => "") ++
  (match e.attendees with
   | some a => if a.length > 0 then
       "   Attendees: " ++ toString a.length ++ " people\n" else ""
   | none => "") ++
  "\n"

/-- The calendar context block appended when the calendar keywords match and
the calendar call succeeds (src/server/openai.ts lines 54–66). -/
def calendarBlock (events : List CalendarEvent) : String :=
  "\n\nUpcoming Calendar Events:\n" ++
  (if events.length = 0 then "No upcoming events in the next 7 days.\n"
   else String.join (events.enum.map (fun p => formatEventItem p.1 p.2)))

/-- Contribution of the email branch of `enrichContextWithBusinessData`
(src/server/openai.ts lines 28–45): produced only when the keywords match and
both Gmail calls succeed; any thrown error is swallowed and yields nothing. -/
def emailPart (clients : ExternalClients) (userMessage : String) : String :=
  if emailKeywordMatch userMessage then
    match clients.listMessages, clients.unreadCount with
    | Except.ok emails, Except.ok unread => emailBlock emails unread
    | _, _ => ""
  else ""

/-- Contribution of the calendar branch of `enrichContextWithBusinessData`
(src/server/openai.ts lines 48–71), with the same swallow-on-failure policy. -/
def calendarPart (clients : ExternalClients) (userMessage : String) : String :=
  if calendarKeywordMatch userMessage then
    match clients.upcomingEvents with
    | Except.ok events => calendarBlock events
    | Except.error _ => ""
  else ""

/-- Embedding of `enrichContextWithBusinessData` (src/server/openai.ts
lines 18–74): empty message short-circuits to the empty context; otherwise the
email block then the calendar block are appended to the accumulator. -/
def enrichContextWithBusinessData (clients : ExternalClients)
    (userMessage : String) : String :=
  if userMessage.isEmpty then ""
  else emailPart clients userMessage ++ calendarPart clients userMessage

/-- Settings row as consumed by `generateAIResponse`; `assistantName` and
`systemInstructions` are nullable columns read through JS `||` defaults. -/
structure SettingsRow where
  id : Nat
  assistantName : Option String
  systemInstructions : Option String
  updatedAt : Nat
  deriving DecidableEq

/-- Chat message shape passed to `generateAIResponse`
({ role; content } pairs). -/
structure ChatMsg where
  role : String
  content : String
  deriving DecidableEq

/-- Embedding of
`messages.filter(m => m.role === 'user').slice(-1)[0]?.content || ''`
(src/server/openai.ts line 81). -/
def latestUserMessage (messages : List ChatMsg) : String :=
  match (messages.filter (fun m => m.role == "user")).getLast? with
  | some m => m.content
  | none => ""

/-- Arabic default of `customInstructions` (src/server/openai.ts line 94). -/
def arabicDefaultInstructions : String :=
  "أنت مساعد ذكي متخصص في مساعدة الشركات. تتعلم من المحادثات السابقة وتتذكر كل شيء. ساعد المستخدم بطريقة احترافية ومنظمة."

/-- English default of `customInstructions` (src/server/openai.ts line 95). -/
def englishDefaultInstructions : String :=
  "You are an intelligent assistant specialized in helping businesses. You learn from previous conversations and remember everything. Help the user in a professional and organized manner."

/-- Arabic branch of `baseSystemMessage` (src/server/openai.ts
lines 100–116), as a function of the interpolated assistant name and custom
instructions. -/
def arabicTemplate (assistantName customInstructions : String) : String :=
  "أنت " ++ assistantName ++
  "، مساعد ذكاء اصطناعي ذكي يعمل لدى شركة أبو خالد.\n    \nتوجيهاتك الأولية:\n" ++
  customInstructions ++
  "\n\nقدراتك:\n- المساعدة في العمليات التجارية والمهام\n- تذكر جميع المعلومات المشاركة معك\n- اتباع التعليمات والأوامر\n- أن تكون محترفًا ومفيدًا واستباقيًا\n- تعلم وفهم سياق العمل\n- اقتراح التحسينات وتتبع المهام عند الاقتضاء\n- الوصول إلى البيانات من الأنظمة التجارية المتصلة (Gmail، Google Calendar، إلخ) واستخدامها\n\nدائمًا استجب بطريقة مفيدة ومهنية وتذكر السياق من الرسائل السابقة.\n\nمهم جدًا: يجب أن تستجيب دائمًا باللغة العربية عندما يكتب المستخدم بالعربية، وبالإنجليزية عندما يكتب بالإنجليزية."

/-- English branch of `baseSystemMessage` (src/server/openai.ts
lines 117–133). -/
def englishTemplate (assistantName customInstructions : String) : String :=
  "You are " ++ assistantName ++
  ", an intelligent AI assistant working for AbuKhalid's company.\n    \nYour Initial Instructions:\n" ++
  customInstructions ++
  "\n\nYour Capabilities:\n- Help with business processes and tasks\n- Remember all information shared with you\n- Follow instructions and orders\n- Be professional, helpful, and proactive\n- Learn and understand the business context\n- Suggest improvements and track tasks when appropriate\n- Access and use data from connected business systems (Gmail, Google Calendar, etc.)\n\nAlways respond in a helpful, professional manner and remember context from previous messages.\n\nImportant: Always respond in the same language as the user. If they write in Arabic, respond in Arabic. If they write in English, respond in English."

/-- Resolved custom instructions:
`settings.systemInstructions || (isArabic ? … : …)`
(src/server/openai.ts lines 93–95). -/
def resolvedInstructions (settings : SettingsRow) (isArabic : Bool) : String :=
  jsOr settings.systemInstructions
    (if isArabic then arabicDefaultInstructions else englishDefaultInstructions)

/-- Resolved assistant name: `settings.assistantName || "Modern"`
(src/server/openai.ts line 97). -/
def resolvedName (settings : SettingsRow) : String :=
  jsOr settings.assistantName "Modern"

/-- The `baseSystemMessage` of `generateAIResponse` as a function of the
settings row and the latest user message (src/server/openai.ts lines 84–133). -/
def baseSystemMessageOf (settings : SettingsRow) (latest : String) : String :=
  let isArabic := containsArabic latest
  if isArabic then
    arabicTemplate (resolvedName settings) (resolvedInstructions settings isArabic)
  else
    englishTemplate (resolvedName settings) (resolvedInstructions settings isArabic)

/-- Embedding of the prompt assembly of `generateAIResponse`
(src/server/openai.ts lines 80–138): `systemContext || baseSystemMessage`,
then `businessContext ? systemMessage + "\n\n" + businessContext
: systemMessage`. -/
def composeSystemPrompt (settings : SettingsRow) (clients : ExternalClients)
    (messages : List ChatMsg) (systemContext : Option String) : String :=
  let latest := latestUserMessage messages
  let businessContext := enrichContextWithBusinessData clients latest
  let systemMessage := jsOr systemContext (baseSystemMessageOf settings latest)
  if businessContext.isEmpty then systemMessage
  else systemMessage ++ "\n\n" ++ businessContext

/-- Outgoing completion request (src/server/openai.ts lines 141–149): the
model name, the system message followed by the mapped history, and the token
budget. -/
structure ChatRequest where
  model : String
  messages : List ChatMsg
  maxCompletionTokens : Nat
  deriving DecidableEq

/-- The request `generateAIResponse` hands to
`openai.chat.completions.create` (src/server/openai.ts lines 141–149). -/
def generateRequest (settings : SettingsRow) (clients : ExternalClients)
    (messages : List ChatMsg) (systemContext : Option String) : ChatRequest :=
  { model := "gpt-5"
    messages :=
      { role := "system"
        content := composeSystemPrompt settings clients messages systemContext } :: messages
    maxCompletionTokens := 8192 }

/-- Conversation row (shared schema; see `createConversation` for the
timestamp defaults). -/
structure Conversation where
  id : Nat
  title : String
  createdAt : Nat
  updatedAt : Nat
  deriving DecidableEq

/-- Message row. -/
structure Message where
  id : Nat
  conversationId : Nat
  role : String
  content : String
  createdAt : Nat
  deriving DecidableEq

/-- Relational state visible to the orchestration core: the three tables it
touches, plus the id generator of the database. -/
structure Store where
  conversations : List Conversation
  messages : List Message
  settingsRows : List SettingsRow
  nextId : Nat
  deriving DecidableEq

/-- The empty database. -/
def initialStore : Store :=
  { conversations := [], messages := [], settingsRows := [], nextId := 0 }

/-- Embedding of `DatabaseStorage.createConversation`
(src/server/storage.ts lines 63–69), which inserts a row and returns it.
Modelled from the spec: the shared schema file holding the timestamp column
defaults is not under src/; per spec §3 a Conversation is created with
`createdAt` and `updatedAt` both set to the insertion time (so that
updatedAt ≥ createdAt holds at creation), and ids are generated fresh by the
database (modelled by the `nextId` counter). -/
def createConversation (st : Store) (now : Nat) (title : String) :
    Conversation × Store :=
  let c : Conversation :=
    { id := st.nextId, title := title, createdAt := now, updatedAt := now }
  (c, { st with conversations := st.conversations ++ [c], nextId := st.nextId + 1 })

/-- Embedding of `DatabaseStorage.updateConversation`
(src/server/storage.ts lines 71–78): set title and `updatedAt := now` on the
row with the given id. -/
def updateConversation (st : Store) (now : Nat) (id : Nat) (title : String) :
    Store :=
  { st with
    conversations := st.conversations.map (fun c =>
      if c.id = id then { c with title := title, updatedAt := now } else c) }

/-- Embedding of `DatabaseStorage.createMessage`
(src/server/storage.ts lines 103–115): insert the message row, then bump the
parent Conversation's `updatedAt` to the current time. -/
def createMessage (st : Store) (now : Nat) (conversationId : Nat)
    (role content : String) : Message × Store :=
  let m : Message :=
    { id := st.nextId, conversationId := conversationId, role := role,
      content := content, createdAt := now }
  (m,
   { st with
     messages := st.messages ++ [m]
     nextId := st.nextId + 1
     conversations := st.conversations.map (fun c =>
       if c.id = conversationId then { c with updatedAt := now } else c) })

/-- Embedding of `DatabaseStorage.getMessages`
(src/server/storage.ts lines 81–87): the rows of one conversation ordered by
`createdAt` (insertion order preserved on ties, matching the stable scan). -/
def getMessages (st : Store) (conversationId : Nat) : List Message :=
  (st.messages.filter (fun m => m.conversationId == conversationId)).mergeSort
    (fun a b => a.createdAt ≤ b.createdAt)

/-- Default Settings row inserted by `getSettings` when the table is empty.
Modelled from the spec: the shared schema file holding the column defaults is
not under src/; per spec §3 the singleton row is "lazily created with
defaults on first read", with nullable name/instructions read through
`|| "Modern"` and `|| (bilingual default)` in src/server/openai.ts, so the
inserted row carries no name and no instructions of its own. -/
def defaultSettingsRow (id : Nat) (now : Nat) : SettingsRow :=
  { id := id, assistantName := none, systemInstructions := none, updatedAt := now }

/-- Embedding of `DatabaseStorage.getSettings`
(src/server/storage.ts lines 171–185): return the first existing row, or
insert the default row if none exists and return it. -/
def getSettings (st : Store) (now : Nat) : SettingsRow × Store :=
  match st.settingsRows.head? with
  | some existingSettings => (existingSettings, st)
  | none =>
    let s := defaultSettingsRow st.nextId now
    (s, { st with settingsRows := st.settingsRows ++ [s], nextId := st.nextId + 1 })

/-- Partial update accepted by `updateSettings`; a `some` field is written,
a `none` field is left untouched. -/
structure SettingsUpdate where
  assistantName : Option (Option String)
  systemInstructions : Option (Option String)
  deriving DecidableEq

/-- Embedding of `DatabaseStorage.updateSettings`
(src/server/storage.ts lines 187–197): get-or-create, then patch the row with
that id and stamp `updatedAt := now`. -/
def updateSettings (st : Store) (now : Nat) (upd : SettingsUpdate) : Store :=
  let (currentSettings, st1) := getSettings st now
  { st1 with
    settingsRows := st1.settingsRows.map (fun s =>
      if s.id = currentSettings.id then
        { s with
          assistantName := upd.assistantName.getD s.assistantName
          systemInstructions := upd.systemInstructions.getD s.systemInstructions
          updatedAt := now }
      else s) }

/-- Outcome of the one `openai.chat.completions.create` call a turn makes:
either a reply arrived (whose content may be `null`), or the call threw an
error whose `message` may be `undefined`. -/
inductive CompletionOutcome where
  | reply : Option String → CompletionOutcome
  | failure : Option String → CompletionOutcome
  deriving DecidableEq

/-- The apology substituted for an empty or missing reply
(src/server/openai.ts line 151). -/
def emptyReplyApology : String :=
  "I apologize, but I couldn't generate a response at this time."

/-- Fallback for errors classified as rate-limit
(src/server/openai.ts line 156). -/
def rateLimitFallback : String :=
  "I'm experiencing high demand right now. Please try again in a moment."

/-- Fallback for errors classified as connectivity/timeout
(src/server/openai.ts line 160). -/
def connectivityFallback : String :=
  "I'm having trouble connecting to my AI service. Please try again shortly."

/-- Fallback for all other completion-call errors
(src/server/openai.ts line 163). -/
def genericFallback : String :=
  "I apologize, but I encountered an error while processing your request. Please try again."

/-- Failure classes of the catch block of `generateAIResponse`. -/
inductive ErrClass where
  | rateLimit
  | connectivity
  | other
  deriving DecidableEq

/-- Classification of a thrown error by its message
(src/server/openai.ts lines 155–163): `error.message?.includes('429') ||
error.message?.includes('rate limit')` first, then the timeout/ECONNREFUSED
test; an absent message is falsy for every test. -/
def classifyErr (errMsg : Option String) : ErrClass :=
  match errMsg with
  | some m =>
    if includes m "429" || includes m "rate limit" then ErrClass.rateLimit
    else if includes m "timeout" || includes m "ECONNREFUSED" then ErrClass.connectivity
    else ErrClass.other
  | none => ErrClass.other

/-- The fixed fallback string returned for a thrown completion error
(src/server/openai.ts lines 152–164). -/
def classifyFallback (errMsg : Option String) : String :=
  match classifyErr errMsg with
  | ErrClass.rateLimit => rateLimitFallback
  | ErrClass.connectivity => connectivityFallback
  | ErrClass.other => genericFallback

/-- Embedding of `generateAIResponse` (src/server/openai.ts lines 76–165):
read settings (threading the store, since the first read may insert the
default row), build the request, and turn the completion outcome into the
reply text — the empty-reply apology for a missing/empty reply, a fixed
fallback string for a thrown error. -/
def generateAIResponse (clients : ExternalClients) (outcome : CompletionOutcome)
    (st : Store) (now : Nat) (messages : List ChatMsg)
    (systemContext : Option String) : String × Store :=
  let (settings, st1) := getSettings st now
  let _req := generateRequest settings clients messages systemContext
  match outcome with
  | CompletionOutcome.reply content => (jsOr content emptyReplyApology, st1)
  | CompletionOutcome.failure errMsg => (classifyFallback errMsg, st1)

/-- Conversation title derived from the first message
(src/server/routes.ts line 105):
`content.slice(0, 50) + (content.length > 50 ? "..." : "")`. -/
def titleOf (content : String) : String :=
  content.take 50 ++ (if content.length > 50 then "..." else "")

/-- Result of one successful chat turn, as returned by the POST handler
(src/server/routes.ts line 136). -/
structure TurnResult where
  userMessage : Message
  aiMessage : Message
  conversationId : Nat
  deriving DecidableEq

/-- Embedding of the chat-turn orchestration of
`POST /api/messages/:conversationId?` (src/server/routes.ts lines 97–141):
resolve or create the conversation, persist the user message, load the
history, generate the reply (no override prompt is passed), persist the
assistant message, and return both with the conversation id. The outcomes of
the external calls are passed in as `clients` and `outcome`; `now` is the
wall-clock time of the turn. -/
def handleTurn (clients : ExternalClients) (outcome : CompletionOutcome)
    (st : Store) (now : Nat) (conversationId? : Option Nat) (content : String) :
    TurnResult × Store :=
  let (cid, st1) :=
    match conversationId? with
    | some cid => (cid, st)
    | none =>
      let (conversation, st') := createConversation st now (titleOf content)
      (conversation.id, st')
  let (userMessage, st2) := createMessage st1 now cid "user" content
  let conversationMessages := getMessages st2 cid
  let (aiContent, st3) :=
    generateAIResponse clients outcome st2 now
      (conversationMessages.map (fun m => { role := m.role, content := m.content }))
      none
  let (aiMessage, st4) := createMessage st3 now cid "assistant" aiContent
  ({ userMessage := userMessage, aiMessage := aiMessage, conversationId := cid },
   st4)

/-- The wall clock never runs behind the timestamps already recorded in the
store: every operation of the step relation below executes at a time `now`
that is at least every stored timestamp. -/
def WellClocked (st : Store) (now : Nat) : Prop :=
  (∀ c ∈ st.conversations, c.createdAt ≤ now ∧ c.updatedAt ≤ now) ∧
  (∀ m ∈ st.messages, m.createdAt ≤ now) ∧
  (∀ s ∈ st.settingsRows, s.updatedAt ≤ now)

/-- One storage operation applied at a time consistent with the clock: the
store operations of `DatabaseStorage` that touch the three modelled tables. -/
inductive Step : Store → Store → Prop where
  | stepCreateConversation (st : Store) (now : Nat) (title : String)
      (h : WellClocked st now) :
      Step st (createConversation st now title).2
  | stepUpdateConversation (st : Store) (now : Nat) (id : Nat) (title : String)
      (h : WellClocked st now) :
      Step st (updateConversation st now id title)
  | stepCreateMessage (st : Store) (now : Nat) (conversationId : Nat)
      (role content : String) (h : WellClocked st now) :
      Step st (createMessage st now conversationId role content).2
  | stepGetSettings (st : Store) (now : Nat) (h : WellClocked st now) :
      Step st (getSettings st now).2
  | stepUpdateSettings (st : Store) (now : Nat) (upd : SettingsUpdate)
      (h : WellClocked st now) :
      Step st (updateSettings st now upd)

/-- Store states reachable from the empty database by storage operations. -/
def Reachable (st : Store) : Prop :=
  Relation.ReflTransGen Step initialStore st

/-- The reply text produced by `generateAIResponse` as a function of the
completion outcome alone. -/
def replyText (outcome : CompletionOutcome) : String :=
  match outcome with
  | CompletionOutcome.reply content => jsOr content emptyReplyApology
  | CompletionOutcome.failure errMsg => classifyFallback errMsg

theorem generateAIResponse_eq (clients : ExternalClients)
    (outcome : CompletionOutcome) (st : Store) (now : Nat)
    (messages : List ChatMsg) (systemContext : Option String) :
    generateAIResponse clients outcome st now messages systemContext =
      (replyText outcome, (getSettings st now).2) := by
  rcases hgs : getSettings st now with ⟨settings, st1⟩
  unfold generateAIResponse
  rw [hgs]
  cases outcome <;> rfl

theorem getSettings_snd_messages (st : Store) (now : Nat) :
    ((getSettings st now).2).messages = st.messages := by
  unfold getSettings
  cases st.settingsRows.head? <;> rfl

theorem getSettings_snd_conversations (st : Store) (now : Nat) :
    ((getSettings st now).2).conversations = st.conversations := by
  unfold getSettings
  cases st.settingsRows.head? <;> rfl

theorem handleTurn_result (clients : ExternalClients)
    (outcome : CompletionOutcome) (st : Store) (now : Nat)
    (conversationId? : Option Nat) (content : String) :
    ∃ cid : Nat,
      (∀ c, conversationId? = some c → cid = c) ∧
      (conversationId? = none → cid = st.nextId) ∧
      handleTurn clients outcome st now conversationId? content =
        (let st1 := match conversationId? with
          | some _ => st
          | none => (createConversation st now (titleOf content)).2
         let userMessage : Message :=
           { id := st1.nextId, conversationId := cid, role := "user",
             content := content, createdAt := now }
         let st2 := (createMessage st1 now cid "user" content).2
         let st3 := (getSettings st2 now).2
         let aiMessage : Message :=
           { id := st3.nextId, conversationId := cid, role := "assistant",
             content := replyText outcome, createdAt := now }
         ({ userMessage := userMessage, aiMessage := aiMessage,
            conversationId := cid },
          (createMessage st3 now cid "assistant" (replyText outcome)).2)) := by
  cases conversationId? with
  | some c =>
    refine ⟨c, fun c' hc' => by simpa using hc', fun hn => by simp at hn, ?_⟩
    simp only [handleTurn, generateAIResponse_eq, createMessage]
  | none =>
    refine ⟨st.nextId, fun c' hc' => by simp at hc', fun _ => rfl, ?_⟩
    simp only [handleTurn, generateAIResponse_eq, createMessage,
      createConversation]

theorem handleTurn_shape (clients : ExternalClients)
    (outcome : CompletionOutcome) (st : Store) (now : Nat)
    (conversationId? : Option Nat) (content : String) :
    ((handleTurn clients outcome st now conversationId? content).2).messages =
      st.messages ++
        [(handleTurn clients outcome st now conversationId? content).1.userMessage,
         (handleTurn clients outcome st now conversationId? content).1.aiMessage] ∧
    (handleTurn clients outcome st now conversationId? content).1.userMessage.role
      = "user" ∧
    (handleTurn clients outcome st now conversationId? content).1.aiMessage.role
      = "assistant" ∧
    (handleTurn clients outcome st now conversationId? content).1.userMessage.conversationId
      = (handleTurn clients outcome st now conversationId? content).1.conversationId ∧
    (handleTurn clients outcome st now conversationId? content).1.aiMessage.conversationId
      = (handleTurn clients outcome st now conversationId? content).1.conversationId ∧
    (handleTurn clients outcome st now conversationId? content).1.userMessage.content
      = content ∧
    (handleTurn clients outcome st now conversationId? content).1.aiMessage.content
      = replyText outcome := by
  obtain ⟨cid, -, -, heq⟩ :=
    handleTurn_result clients outcome st now conversationId? content
  rw [heq]
  cases conversationId? <;>
    simp [createMessage, createConversation, getSettings_snd_messages]

theorem updateSettings_conversations (st : Store) (now : Nat)
    (upd : SettingsUpdate) :
    (updateSettings st now upd).conversations = st.conversations := by
  rcases hgs : getSettings st now with ⟨cur, st1⟩
  unfold updateSettings
  rw [hgs]
  show st1.conversations = st.conversations
  have h1 : st1 = (getSettings st now).2 := by rw [hgs]
  rw [h1, getSettings_snd_conversations]

/-- Timestamp sanity of Conversation rows: creation time never exceeds the
last-update time. -/
def ConversationsOk (st : Store) : Prop :=
  ∀ c ∈ st.conversations, c.createdAt ≤ c.updatedAt

theorem step_preserves_ConversationsOk {st st' : Store} (h : Step st st')
    (inv : ConversationsOk st) : ConversationsOk st' := by
  cases h with
  | stepCreateConversation now title hw =>
    intro c hc
    simp only [createConversation, List.mem_append, List.mem_singleton] at hc
    rcases hc with hc | hc
    · exact inv c hc
    · subst hc; exact le_refl now
  | stepUpdateConversation now id title hw =>
    intro c hc
    simp only [updateConversation, List.mem_map] at hc
    obtain ⟨c0, hc0, rfl⟩ := hc
    by_cases hid : c0.id = id
    · simpa [hid] using (hw.1 c0 hc0).1
    · simpa [hid] using inv c0 hc0
  | stepCreateMessage now conversationId role content hw =>
    intro c hc
    simp only [createMessage, List.mem_map] at hc
    obtain ⟨c0, hc0, rfl⟩ := hc
    by_cases hid : c0.id = conversationId
    · simpa [hid] using (hw.1 c0 hc0).1
    · simpa [hid] using inv c0 hc0
  | stepGetSettings now hw =>
    intro c hc
    rw [getSettings_snd_conversations] at hc
    exact inv c hc
  | stepUpdateSettings now upd hw =>
    intro c hc
    rw [updateSettings_conversations] at hc
    exact inv c hc

theorem reachable_ConversationsOk {st : Store} (h : Reachable st) :
    ConversationsOk st := by
  induction h with
  | refl => intro c hc; simp [initialStore] at hc
  | tail _ hstep ih => exact step_preserves_ConversationsOk hstep ih

/-- The Settings table holds at most one row. -/
def SettingsSingleton (st : Store) : Prop :=
  st.settingsRows.length ≤ 1

theorem getSettings_preserves_SettingsSingleton (st : Store) (now : Nat)
    (inv : SettingsSingleton st) : SettingsSingleton ((getSettings st now).2) := by
  unfold getSettings
  cases h : st.settingsRows.head? with
  | some s => exact inv
  | none =>
    have hnil : st.settingsRows = [] := List.head?_eq_none_iff.mp h
    simp [SettingsSingleton, hnil]

theorem step_preserves_SettingsSingleton {st st' : Store} (h : Step st st')
    (inv : SettingsSingleton st) : SettingsSingleton st' := by
  cases h with
  | stepCreateConversation now title hw =>
    simpa [SettingsSingleton, createConversation] using inv
  | stepUpdateConversation now id title hw =>
    simpa [SettingsSingleton, updateConversation] using inv
  | stepCreateMessage now conversationId role content hw =>
    simpa [SettingsSingleton, createMessage] using inv
  | stepGetSettings now hw =>
    exact getSettings_preserves_SettingsSingleton _ now inv
  | stepUpdateSettings now upd hw =>
    rcases hgs : getSettings st now with ⟨cur, st1⟩
    have h1 : SettingsSingleton st1 := by
      have := getSettings_preserves_SettingsSingleton _ now inv
      rwa [hgs] at this
    unfold updateSettings
    rw [hgs]
    simpa [SettingsSingleton] using h1

theorem reachable_SettingsSingleton {st : Store} (h : Reachable st) :
    SettingsSingleton st := by
  induction h with
  | refl => simp [SettingsSingleton, initialStore]
  | tail _ hstep ih => exact step_preserves_SettingsSingleton hstep ih

theorem arabicTemplate_head (n i : String) :
    (arabicTemplate n i).data.head? = some 'أ' := by
  unfold arabicTemplate
  rw [String.data_append, String.data_append, String.data_append,
    String.data_append]
  rw [show ("أنت " : String).data = 'أ' :: ['ن', 'ت', ' '] from by decide]
  rfl

theorem englishTemplate_head (n i : String) :
    (englishTemplate n i).data.head? = some 'Y' := by
  unfold englishTemplate
  rw [String.data_append, String.data_append, String.data_append,
    String.data_append]
  rw [show ("You are " : String).data = 'Y' :: ['o', 'u', ' ', 'a', 'r', 'e', ' ']
    from by decide]
  rfl

theorem arabicTemplate_ne_englishTemplate (n i n' i' : String) :
    arabicTemplate n i ≠ englishTemplate n' i' := by
  intro h
  have hd : some 'أ' = some 'Y' := by
    rw [← arabicTemplate_head n i, ← englishTemplate_head n' i', h]
  simp at hd

theorem composeSystemPrompt_none (settings : SettingsRow)
    (clients : ExternalClients) (messages : List ChatMsg) :
    composeSystemPrompt settings clients messages none =
      (if (enrichContextWithBusinessData clients (latestUserMessage messages)).isEmpty
       then baseSystemMessageOf settings (latestUserMessage messages)
       else baseSystemMessageOf settings (latestUserMessage messages) ++ "\n\n" ++
         enrichContextWithBusinessData clients (latestUserMessage messages)) :=
  rfl

theorem composeSystemPrompt_some (settings : SettingsRow)
    (clients : ExternalClients) (messages : List ChatMsg) (ctx : String)
    (hne : ctx.isEmpty = false) :
    composeSystemPrompt settings clients messages (some ctx) =
      (if (enrichContextWithBusinessData clients (latestUserMessage messages)).isEmpty
       then ctx
       else ctx ++ "\n\n" ++
         enrichContextWithBusinessData clients (latestUserMessage messages)) := by
  have hj : jsOr (some ctx)
      (baseSystemMessageOf settings (latestUserMessage messages)) = ctx := by
    simp [jsOr, hne]
  simp only [composeSystemPrompt]
  rw [hj]

/-- C1: for every non-empty `userText`, a successful `handleTurn`
(POST /api/messages) appends exactly one Message with role `user` and then
exactly one Message with role `assistant` to the store — never zero, never
more than two — both carrying the resolved conversationId, and returns both
messages together with that conversationId. -/
theorem handleTurn_persists_one_user_then_one_assistant
    (clients : ExternalClients) (outcome : CompletionOutcome) (st : Store)
    (now : Nat) (conversationId? : Option Nat) (content : String)
    (h : content ≠ "") :
    ((handleTurn clients outcome st now conversationId? content).2).messages =
      st.messages ++
        [(handleTurn clients outcome st now conversationId? content).1.userMessage,
         (handleTurn clients outcome st now conversationId? content).1.aiMessage] ∧
    (handleTurn clients outcome st now conversationId? content).1.userMessage.role
      = "user" ∧
    (handleTurn clients outcome st now conversationId? content).1.aiMessage.role
      = "assistant" ∧
    (handleTurn clients outcome st now conversationId? content).1.userMessage.conversationId
      = (handleTurn clients outcome st now conversationId? content).1.conversationId ∧
    (handleTurn clients outcome st now conversationId? content).1.aiMessage.conversationId
      = (handleTurn clients outcome st now conversationId? content).1.conversationId := by
  obtain ⟨h1, h2, h3, h4, h5, -, -⟩ :=
    handleTurn_shape clients outcome st now conversationId? content
  exact ⟨h1, h2, h3, h4, h5⟩

/-- Witness for C1: the two-message postcondition at a concrete turn. -/
theorem handleTurn_persists_one_user_then_one_assistant_witness :
    (("hi" : String) ≠ "") ∧
    (handleTurn ⟨Except.error "e", Except.error "e", Except.error "e"⟩
        (CompletionOutcome.reply (some "hello")) initialStore 0 none
        "hi").1.userMessage.role = "user" :=
  ⟨by decide,
   (handleTurn_persists_one_user_then_one_assistant
      ⟨Except.error "e", Except.error "e", Except.error "e"⟩
      (CompletionOutcome.reply (some "hello")) initialStore 0 none "hi"
      (by decide)).2.1⟩

/-- Counterexample to C2: with a caller-supplied override prompt present and
an email-keyword message whose Gmail fetches succeed, the composed system
prompt is not the override — the enrichment block is appended to it. -/
theorem override_prompt_enrichment_counterexample :
    composeSystemPrompt
        { id := 0, assistantName := none, systemInstructions := none,
          updatedAt := 0 }
        ⟨Except.ok [], Except.ok 0, Except.error "not connected"⟩
        [{ role := "user", content := "any mail today?" }]
        (some "OVERRIDE") ≠ "OVERRIDE" := by
  decide

/-- C2 as amended: a non-empty caller-supplied override replaces the bilingual
template and the Settings-derived name and instructions, but the enrichment
text block is still appended to the override whenever it is non-empty; the
composed prompt equals the override exactly only when the enrichment block is
empty. (An empty-string override is falsy and is ignored entirely.) -/
theorem override_prompt_bypasses_template_not_enrichment
    (settings : SettingsRow) (clients : ExternalClients)
    (messages : List ChatMsg) (ctx : String) (h : ctx ≠ "") :
    composeSystemPrompt settings clients messages (some ctx) =
      (if (enrichContextWithBusinessData clients (latestUserMessage messages)).isEmpty
       then ctx
       else ctx ++ "\n\n" ++
         enrichContextWithBusinessData clients (latestUserMessage messages)) := by
  have hne : ctx.isEmpty = false := by
    cases he : ctx.isEmpty with
    | false => rfl
    | true => exact absurd ((String.isEmpty_iff ctx).mp he) h
  exact composeSystemPrompt_some settings clients messages ctx hne

/-- Witness for the amended C2 at a concrete override. -/
theorem override_prompt_bypasses_template_not_enrichment_witness :
    (("X" : String) ≠ "") ∧
    composeSystemPrompt
        { id := 0, assistantName := none, systemInstructions := none,
          updatedAt := 0 }
        ⟨Except.error "e", Except.error "e", Except.error "e"⟩ []
        (some "X") =
      (if (enrichContextWithBusinessData
            ⟨Except.error "e", Except.error "e", Except.error "e"⟩
            (latestUserMessage [])).isEmpty
       then "X"
       else "X" ++ "\n\n" ++
         enrichContextWithBusinessData
           ⟨Except.error "e", Except.error "e", Except.error "e"⟩
           (latestUserMessage [])) :=
  ⟨by decide,
   override_prompt_bypasses_template_not_enrichment
     { id := 0, assistantName := none, systemInstructions := none,
       updatedAt := 0 }
     ⟨Except.error "e", Except.error "e", Except.error "e"⟩ [] "X" (by decide)⟩

/-- C3: when `handleTurn` is called with no conversationId and non-empty
userText, the Conversation it creates has title equal to the first 50
characters of userText, with "..." appended iff the length exceeds 50, and
the title equals userText unchanged when the length is at most 50. -/
theorem new_conversation_creates_truncated_title
    (clients : ExternalClients) (outcome : CompletionOutcome) (st : Store)
    (now : Nat) (content : String) (h : content ≠ "") :
    (∃ c ∈ ((handleTurn clients outcome st now none content).2).conversations,
        c.id = (handleTurn clients outcome st now none content).1.conversationId ∧
        c.title = titleOf content) ∧
    (content.length ≤ 50 → titleOf content = content) ∧
    (50 < content.length → titleOf content = content.take 50 ++ "...") := by
  refine ⟨?_, ?_, ?_⟩
  · obtain ⟨cid, -, hnone, heq⟩ := handleTurn_result clients outcome st now none content
    have hcid : cid = st.nextId := hnone rfl
    subst hcid
    rw [heq]
    simp only [createMessage, createConversation, getSettings_snd_conversations]
    refine ⟨_, List.mem_map_of_mem _ (List.mem_map_of_mem _
      (List.mem_append_right _ (List.mem_singleton_self _))), ?_⟩
    simp
  · intro hle
    unfold titleOf
    rw [if_neg (by omega)]
    rw [String.append_empty]
    apply String.ext
    rw [String.data_take]
    exact List.take_of_length_le hle
  · intro hgt
    unfold titleOf
    rw [if_pos hgt]

/-- Witness for C3: a 52-character text yields a truncated, ellipsized
title and a 2-character text keeps its title. -/
theorem new_conversation_creates_truncated_title_witness :
    (("hi" : String) ≠ "") ∧ (("hi" : String).length ≤ 50 → titleOf "hi" = "hi") :=
  ⟨by decide,
   (new_conversation_creates_truncated_title
      ⟨Except.error "e", Except.error "e", Except.error "e"⟩
      (CompletionOutcome.reply (some "ok")) initialStore 0 "hi"
      (by decide)).2.1⟩

/-- C4: with no override prompt, the base system message is the Arabic
template iff the latest user message contains a character of the Arabic
Unicode ranges, and the English template otherwise; the empty string is
classified as not Arabic; the choice depends only on the latest user message
(appending it after any prior turns yields its content as the detected text);
and the two templates never coincide, so the selection is exclusive. -/
theorem arabic_template_selection
    (settings : SettingsRow) (clients : ExternalClients)
    (messages prior : List ChatMsg) (m : ChatMsg) (hrole : m.role = "user") :
    containsArabic "" = false ∧
    (∀ t : String, containsArabic t = true ↔ ∃ c ∈ t.data, isArabicChar c = true) ∧
    latestUserMessage (prior ++ [m]) = m.content ∧
    baseSystemMessageOf settings (latestUserMessage messages) =
      (if containsArabic (latestUserMessage messages) then
        arabicTemplate (resolvedName settings)
          (resolvedInstructions settings (containsArabic (latestUserMessage messages)))
      else
        englishTemplate (resolvedName settings)
          (resolvedInstructions settings (containsArabic (latestUserMessage messages)))) ∧
    (∀ n i n' i' : String, arabicTemplate n i ≠ englishTemplate n' i') ∧
    composeSystemPrompt settings clients messages none =
      (if (enrichContextWithBusinessData clients (latestUserMessage messages)).isEmpty
       then baseSystemMessageOf settings (latestUserMessage messages)
       else baseSystemMessageOf settings (latestUserMessage messages) ++ "\n\n" ++
         enrichContextWithBusinessData clients (latestUserMessage messages)) := by
  refine ⟨by decide, ?_, ?_, rfl, arabicTemplate_ne_englishTemplate,
    composeSystemPrompt_none settings clients messages⟩
  · intro t
    simp [containsArabic, List.any_eq_true]
  · simp [latestUserMessage, List.filter_append, hrole, List.getLast?_concat]

/-- Witness for C4: the latest-user-message extraction at a concrete Arabic
turn. -/
theorem arabic_template_selection_witness :
    latestUserMessage
      ([] ++ [({ role := "user", content := "مرحبا" } : ChatMsg)]) = "مرحبا" :=
  (arabic_template_selection
    { id := 0, assistantName := none, systemInstructions := none, updatedAt := 0 }
    ⟨Except.error "e", Except.error "e", Except.error "e"⟩ [] []
    { role := "user", content := "مرحبا" } rfl).2.2.1

/-- C5: for a completion-call failure classified as rate-limit, the assistant
Message that `handleTurn` persists carries exactly the fixed rate-limit
fallback string (the failure-class-to-fallback mapping is a function, hence
deterministic), and the turn still completes: both messages are appended. -/
theorem rate_limit_failure_persists_fixed_fallback
    (clients : ExternalClients) (st : Store) (now : Nat)
    (conversationId? : Option Nat) (content : String) (errMsg : Option String)
    (h : classifyErr errMsg = ErrClass.rateLimit) :
    classifyFallback errMsg = rateLimitFallback ∧
    (handleTurn clients (CompletionOutcome.failure errMsg) st now conversationId?
        content).1.aiMessage.content = rateLimitFallback ∧
    ((handleTurn clients (CompletionOutcome.failure errMsg) st now conversationId?
        content).2).messages =
      st.messages ++
        [(handleTurn clients (CompletionOutcome.failure errMsg) st now
            conversationId? content).1.userMessage,
         (handleTurn clients (CompletionOutcome.failure errMsg) st now
            conversationId? content).1.aiMessage] ∧
    (handleTurn clients (CompletionOutcome.failure errMsg) st now conversationId?
        content).1.aiMessage.role = "assistant" := by
  have hfb : classifyFallback errMsg = rateLimitFallback := by
    unfold classifyFallback
    rw [h]
  obtain ⟨h1, -, h3, -, -, -, h7⟩ :=
    handleTurn_shape clients (CompletionOutcome.failure errMsg) st now
      conversationId? content
  refine ⟨hfb, ?_, h1, h3⟩
  rw [h7]
  exact hfb

/-- Witness for C5 at a concrete 429 error message. -/
theorem rate_limit_failure_persists_fixed_fallback_witness :
    classifyFallback (some "HTTP 429 returned") = rateLimitFallback :=
  (rate_limit_failure_persists_fixed_fallback
    ⟨Except.error "e", Except.error "e", Except.error "e"⟩ initialStore 0 none
    "hi" (some "HTTP 429 returned") (by decide)).1

/-- C6: when the latest user text matches an email-intent keyword but the
Email client throws, the email block is empty, the enrichment output reduces
to the calendar contribution alone (which depends only on the calendar
client), the composed prompt carries no email-derived content, and the turn
still completes with a persisted assistant Message — the failure never
propagates. -/
theorem email_failure_isolated
    (clients : ExternalClients) (outcome : CompletionOutcome) (st : Store)
    (now : Nat) (conversationId? : Option Nat) (content : String)
    (settings : SettingsRow) (messages : List ChatMsg) (e : String)
    (hmatch : emailKeywordMatch (latestUserMessage messages) = true)
    (hfail : clients.listMessages = Except.error e) :
    emailPart clients (latestUserMessage messages) = "" ∧
    enrichContextWithBusinessData clients (latestUserMessage messages) =
      calendarPart clients (latestUserMessage messages) ∧
    (∀ clients' : ExternalClients,
      clients'.upcomingEvents = clients.upcomingEvents →
      calendarPart clients' (latestUserMessage messages) =
        calendarPart clients (latestUserMessage messages)) ∧
    composeSystemPrompt settings clients messages none =
      (if (calendarPart clients (latestUserMessage messages)).isEmpty
       then baseSystemMessageOf settings (latestUserMessage messages)
       else baseSystemMessageOf settings (latestUserMessage messages) ++ "\n\n" ++
         calendarPart clients (latestUserMessage messages)) ∧
    ((handleTurn clients outcome st now conversationId? content).2).messages =
      st.messages ++
        [(handleTurn clients outcome st now conversationId? content).1.userMessage,
         (handleTurn clients outcome st now conversationId? content).1.aiMessage] ∧
    (handleTurn clients outcome st now conversationId? content).1.aiMessage.role
      = "assistant" := by
  have hep : emailPart clients (latestUserMessage messages) = "" := by
    rcases hu : clients.unreadCount with u | u <;>
      simp [emailPart, hmatch, hfail, hu]
  have hne : (latestUserMessage messages).isEmpty = false := by
    cases hie : (latestUserMessage messages).isEmpty with
    | false => rfl
    | true =>
      have h0 : latestUserMessage messages = "" := (String.isEmpty_iff _).mp hie
      rw [h0] at hmatch
      exact absurd hmatch (by decide)
  have h2 : enrichContextWithBusinessData clients (latestUserMessage messages) =
      calendarPart clients (latestUserMessage messages) := by
    simp [enrichContextWithBusinessData, hne, hep]
  obtain ⟨h5, -, h6, -, -, -, -⟩ :=
    handleTurn_shape clients outcome st now conversationId? content
  refine ⟨hep, h2, ?_, ?_, h5, h6⟩
  · intro clients' hc'
    unfold calendarPart
    rw [hc']
  · rw [composeSystemPrompt_none, h2]

/-- Witness for C6: a turn asking about email with the Gmail client
throwing "not connected". -/
theorem email_failure_isolated_witness :
    emailPart ⟨Except.error "not connected", Except.ok 0, Except.ok []⟩
      (latestUserMessage [{ role := "user", content := "check my email" }]) = "" :=
  (email_failure_isolated
    ⟨Except.error "not connected", Except.ok 0, Except.ok []⟩
    (CompletionOutcome.reply (some "ok")) initialStore 0 none "check my email"
    { id := 0, assistantName := none, systemInstructions := none, updatedAt := 0 }
    [{ role := "user", content := "check my email" }] "not connected"
    (by decide) rfl).1

/-- C7: `getSettings` is idempotent — a second call with no intervening
update returns the same Settings value and leaves the store unchanged (no
second default row) — and in every reachable store state at most one Settings
row exists. -/
theorem getSettings_idempotent_and_singleton (st : Store) (now now' : Nat) :
    (getSettings (getSettings st now).2 now').1 = (getSettings st now).1 ∧
    (getSettings (getSettings st now).2 now').2 = (getSettings st now).2 ∧
    (∀ st' : Store, Reachable st' → st'.settingsRows.length ≤ 1) := by
  have hpair : (getSettings (getSettings st now).2 now').1 =
        (getSettings st now).1 ∧
      (getSettings (getSettings st now).2 now').2 = (getSettings st now).2 := by
    cases h : st.settingsRows.head? with
    | some s => constructor <;> simp [getSettings, h]
    | none =>
      have hnil : st.settingsRows = [] := List.head?_eq_none_iff.mp h
      constructor <;> simp [getSettings, hnil]
  exact ⟨hpair.1, hpair.2, fun st' h => reachable_SettingsSingleton h⟩

/-- Witness for C7: idempotence at the empty store, and the singleton bound
at the (reachable) empty store. -/
theorem getSettings_idempotent_and_singleton_witness :
    (getSettings (getSettings initialStore 0).2 1).1 =
      (getSettings initialStore 0).1 ∧
    initialStore.settingsRows.length ≤ 1 :=
  ⟨(getSettings_idempotent_and_singleton initialStore 0 1).1,
   (getSettings_idempotent_and_singleton initialStore 0 1).2.2 initialStore
     Relation.ReflTransGen.refl⟩

/-- C8: in every reachable store state every Conversation row satisfies
createdAt ≤ updatedAt, and `createMessage` bumps the parent Conversation's
updatedAt to a value no earlier than its previous one, preserving the
invariant (the step relation covers every store operation touching
Conversations, each executed at a clock-consistent time). -/
theorem conversation_updatedAt_ge_createdAt
    (st : Store) (now : Nat) (conversationId : Nat) (role content : String)
    (hr : Reachable st) (hw : WellClocked st now) :
    (∀ c ∈ st.conversations, c.createdAt ≤ c.updatedAt) ∧
    (∀ c ∈ st.conversations,
      ∃ c' ∈ ((createMessage st now conversationId role content).2).conversations,
        c'.id = c.id ∧ c.updatedAt ≤ c'.updatedAt ∧ c'.createdAt ≤ c'.updatedAt) := by
  have hok : ConversationsOk st := reachable_ConversationsOk hr
  refine ⟨hok, ?_⟩
  intro c hc
  by_cases hid : c.id = conversationId
  · refine ⟨{ c with updatedAt := now }, ?_, rfl, (hw.1 c hc).2, (hw.1 c hc).1⟩
    simp only [createMessage, List.mem_map]
    exact ⟨c, hc, by simp [hid]⟩
  · refine ⟨c, ?_, rfl, le_refl _, hok c hc⟩
    simp only [createMessage, List.mem_map]
    exact ⟨c, hc, by simp [hid]⟩

/-- Witness for C8: the invariant instantiated at a store reachable in one
step (one conversation created at time 0, inspected at time 1). -/
theorem conversation_updatedAt_ge_createdAt_witness :
    ({ id := 0, title := "t", createdAt := 0, updatedAt := 0 } :
      Conversation).createdAt ≤
      ({ id := 0, title := "t", createdAt := 0, updatedAt := 0 } :
        Conversation).updatedAt :=
  (conversation_updatedAt_ge_createdAt
    (createConversation initialStore 0 "t").2 1 0 "user" "x"
    (Relation.ReflTransGen.single
      (Step.stepCreateConversation initialStore 0 "t"
        (by unfold WellClocked; decide)))
    (by unfold WellClocked; decide)).1
    { id := 0, title := "t", createdAt := 0, updatedAt := 0 } (by decide)

/-- C9: when Context Enrichment produces the empty string, the composed
system prompt is byte-identical to the base (or override) system message —
no separator and no delimiter are appended — and the outgoing request as a
whole is exactly the one built from that bare system message: same model,
same history, same token budget. -/
theorem empty_enrichment_request_identical
    (settings : SettingsRow) (clients : ExternalClients)
    (messages : List ChatMsg) (systemContext : Option String)
    (h : enrichContextWithBusinessData clients (latestUserMessage messages) = "") :
    composeSystemPrompt settings clients messages systemContext =
      jsOr systemContext (baseSystemMessageOf settings (latestUserMessage messages)) ∧
    generateRequest settings clients messages systemContext =
      { model := "gpt-5"
        messages :=
          { role := "system"
            content := jsOr systemContext
              (baseSystemMessageOf settings (latestUserMessage messages)) } :: messages
        maxCompletionTokens := 8192 } := by
  have hc : composeSystemPrompt settings clients messages systemContext =
      jsOr systemContext
        (baseSystemMessageOf settings (latestUserMessage messages)) := by
    simp only [composeSystemPrompt]
    rw [h]
    rfl
  refine ⟨hc, ?_⟩
  unfold generateRequest
  rw [hc]

/-- Witness for C9 at a concrete no-keyword turn with unavailable clients. -/
theorem empty_enrichment_request_identical_witness :
    composeSystemPrompt
        { id := 0, assistantName := none, systemInstructions := none,
          updatedAt := 0 }
        ⟨Except.error "e", Except.error "e", Except.error "e"⟩
        [{ role := "user", content := "hello" }] none =
      jsOr none
        (baseSystemMessageOf
          { id := 0, assistantName := none, systemInstructions := none,
            updatedAt := 0 }
          (latestUserMessage [{ role := "user", content := "hello" }])) :=
  (empty_enrichment_request_identical
    { id := 0, assistantName := none, systemInstructions := none, updatedAt := 0 }
    ⟨Except.error "e", Except.error "e", Except.error "e"⟩
    [{ role := "user", content := "hello" }] none (by decide)).1

/-- C10: every degraded-path assistant reply — the empty-reply apology and
the three completion-failure fallbacks — is a fixed string independent of the
conversation (in particular of the detected language of the latest user
message), every thrown error maps to one of the three fallbacks, and none of
the four strings contains an Arabic-range character. -/
theorem degraded_replies_fixed_english :
    (∀ (clients : ExternalClients) (st : Store) (now : Nat)
        (messages : List ChatMsg) (systemContext : Option String)
        (errMsg : Option String),
      (generateAIResponse clients (CompletionOutcome.failure errMsg) st now
          messages systemContext).1 = classifyFallback errMsg) ∧
    (∀ (clients : ExternalClients) (st : Store) (now : Nat)
        (messages : List ChatMsg) (systemContext : Option String),
      (generateAIResponse clients (CompletionOutcome.reply none) st now
          messages systemContext).1 = emptyReplyApology ∧
      (generateAIResponse clients (CompletionOutcome.reply (some "")) st now
          messages systemContext).1 = emptyReplyApology) ∧
    (∀ errMsg : Option String,
      classifyFallback errMsg = rateLimitFallback ∨
      classifyFallback errMsg = connectivityFallback ∨
      classifyFallback errMsg = genericFallback) ∧
    containsArabic emptyReplyApology = false ∧
    containsArabic rateLimitFallback = false ∧
    containsArabic connectivityFallback = false ∧
    containsArabic genericFallback = false := by
  refine ⟨?_, ?_, ?_, by decide, by decide, by decide, by decide⟩
  · intro clients st now messages systemContext errMsg
    rw [generateAIResponse_eq]
    rfl
  · intro clients st now messages systemContext
    constructor <;> (rw [generateAIResponse_eq]; rfl)
  · intro errMsg
    rcases h : classifyErr errMsg with _ | _ | _ <;>
      simp [classifyFallback, h]

end MPBF
